import Mathlib

/-!
Verification of `convert_usd_to_gltf.py`, a wrapper script that shells out
to the external `usd2gltf` tool and reports the outcome on the console.

The embedding models the filesystem and the external process as an
environment (`Env`): `pathExists` stands for `os.path.exists`, and `run`
stands for the behaviour of `subprocess.run` on a given argument vector
(the process either completes with a return code and captured streams, or
the executable cannot be started at all, which Python reports as
`FileNotFoundError`). Running the script produces a `Trace`: the list of
console messages printed, the list of argument vectors handed to
`subprocess.run`, and the exception escaping the code, if any.
-/

/-- A completed external process as returned by `subprocess.run`:
return code plus captured stdout and stderr (modelled as already-decoded
text). -/
structure CompletedProcess where
  returncode : Int
  stdout : String
  stderr : String
deriving DecidableEq, Repr

/-- What happens when the operating system is asked to start the external
process: either it runs to completion, or the executable cannot be
located/started at all. -/
inductive SpawnOutcome where
  | completed (r : CompletedProcess)
  | execMissing
deriving DecidableEq, Repr

/-- The ambient environment of the script: the filesystem-existence test
used by `os.path.exists`, and the behaviour of the external world for each
argument vector handed to `subprocess.run`. -/
structure Env where
  pathExists : String → Bool
  run : List String → SpawnOutcome

/-- The Python exceptions that can arise from `subprocess.run(..., check=True)`
in this script. -/
inductive PyError where
  | calledProcessError (returncode : Int) (stdout stderr : String)
  | fileNotFoundError
deriving DecidableEq, Repr

/-- `subprocess.run(argv, check=True, stdout=PIPE, stderr=PIPE)`:
raises `FileNotFoundError` when the executable cannot be started, raises
`CalledProcessError` when the process exits non-zero, otherwise returns
the completed process. -/
def subprocessRun (env : Env) (argv : List String) : Except PyError CompletedProcess :=
  match env.run argv with
  | .execMissing => .error .fileNotFoundError
  | .completed r =>
      if r.returncode = 0 then .ok r
      else .error (.calledProcessError r.returncode r.stdout r.stderr)

/-- One console message printed by the script, tagged by the print site in
the source; `Msg.render` gives the exact text. -/
inductive Msg where
  | stdoutDump (text : String)
  | successNote (output_gltf : String)
  | convError (stderr : String)
  | toolMissing
  | inputMissing (input_usd : String)
deriving DecidableEq, Repr

/-- The exact console text of each message, matching the `print` calls in
the source line for line. -/
def Msg.render : Msg → String
  | .stdoutDump t => t
  | .successNote o => "Conversion successful: " ++ o
  | .convError e => "Error during conversion: " ++ e
  | .toolMissing => "usd2gltf tool not found. Please install it and add it to your PATH."
  | .inputMissing i => "Input USD file not found: " ++ i

/-- Observable behaviour of one execution: the console messages in order,
the argument vectors handed to `subprocess.run` in order, and the
exception escaping the code, if any. -/
structure Trace where
  printed : List Msg
  spawned : List (List String)
  raised : Option PyError
deriving DecidableEq, Repr

/-- The console text of a trace, in print order. -/
def consoleText (t : Trace) : List String :=
  t.printed.map Msg.render

/-- The argument vector built at line 14 of the source:
`["usd2gltf", input_usd, "-o", output_gltf]`. -/
def usd2gltfArgv (input_usd output_gltf : String) : List String :=
  ["usd2gltf", input_usd, "-o", output_gltf]

/-- `convert_usd_to_gltf(input_usd, output_gltf)` (source lines 4–20):
runs `subprocess.run(["usd2gltf", input_usd, "-o", output_gltf], check=True,
stdout=PIPE, stderr=PIPE)` inside `try`; on success prints the decoded
stdout and then the confirmation message; `except CalledProcessError`
prints the decoded stderr in an error message; `except FileNotFoundError`
prints the remediation message. No branch re-raises. -/
def convert_usd_to_gltf (env : Env) (input_usd output_gltf : String) : Trace :=
  match subprocessRun env (usd2gltfArgv input_usd output_gltf) with
  | .ok result =>
      { printed := [.stdoutDump result.stdout, .successNote output_gltf],
        spawned := [usd2gltfArgv input_usd output_gltf],
        raised := none }
  | .error (.calledProcessError _ _ stderr) =>
      { printed := [.convError stderr],
        spawned := [usd2gltfArgv input_usd output_gltf],
        raised := none }
  | .error .fileNotFoundError =>
      { printed := [.toolMissing],
        spawned := [usd2gltfArgv input_usd output_gltf],
        raised := none }

/-- The `__main__` branch of the script (source lines 27–30), abstracted
over the path pair it is applied to: if `os.path.exists(input_usd)` then
call `convert_usd_to_gltf`, else print the input-not-found message. -/
def scriptEntry (env : Env) (input_usd output_gltf : String) : Trace :=
  if env.pathExists input_usd then
    convert_usd_to_gltf env input_usd output_gltf
  else
    { printed := [.inputMissing input_usd], spawned := [], raised := none }

/-- The hardcoded example input path of the `__main__` block (line 24). -/
def mainInput : String := "Scenes/universalrobots-ur3e.usd"

/-- The hardcoded example output path of the `__main__` block (line 25). -/
def mainOutput : String := "Scenes/universalrobots-ur3e.glb"

/-- Direct execution of the script: the `__main__` block applied to the
hardcoded example path pair. The environment carries no command-line
flags, options or environment variables, mirroring that the script reads
none. -/
def mainScript (env : Env) : Trace :=
  scriptEntry env mainInput mainOutput

/-- The exit code of the host Python process for a direct execution: 0 on
normal completion, 1 if an exception escapes to the interpreter. -/
def scriptExitCode (env : Env) : Int :=
  if (mainScript env).raised.isSome then 1 else 0

/-! Concrete environments used as witnesses. -/

/-- Every path exists; the tool completes with exit 0 printing `OK`. -/
def envOk : Env :=
  { pathExists := fun _ => true,
    run := fun _ => .completed ⟨0, "OK", ""⟩ }

/-- Every path exists; the tool completes with exit 2, stdout `partial
work` and stderr `boom`. -/
def envFail : Env :=
  { pathExists := fun _ => true,
    run := fun _ => .completed ⟨2, "some output", "boom"⟩ }

/-- Every path exists; the tool executable cannot be started. -/
def envNoTool : Env :=
  { pathExists := fun _ => true,
    run := fun _ => .execMissing }

/-- No path exists; the tool executable cannot be started. -/
def envNoFile : Env :=
  { pathExists := fun _ => false,
    run := fun _ => .execMissing }

/-! Helper lemmas shared by the claim theorems. -/

/-- Whatever `subprocess.run` does, `convert_usd_to_gltf` hands it exactly
the one argument vector `["usd2gltf", input_usd, "-o", output_gltf]`. -/
theorem convert_spawned_eq (env : Env) (i o : String) :
    (convert_usd_to_gltf env i o).spawned = [["usd2gltf", i, "-o", o]] := by
  unfold convert_usd_to_gltf
  split <;> rfl

/-- No branch of `convert_usd_to_gltf` lets an exception escape. -/
theorem convert_raised_none (env : Env) (i o : String) :
    (convert_usd_to_gltf env i o).raised = none := by
  unfold convert_usd_to_gltf
  split <;> rfl

/-- No branch of the script entry lets an exception escape. -/
theorem scriptEntry_raised_none (env : Env) (i o : String) :
    (scriptEntry env i o).raised = none := by
  unfold scriptEntry
  split
  · exact convert_raised_none env i o
  · rfl

/-! Claim theorems. -/

/-- Claim C1: for every input path that does not reference an existing
filesystem entry, the (script-level) conversion operation prints the
input-not-found message naming that path and returns without handing any
argument vector to `subprocess.run`. -/
theorem missing_input_reports_and_no_spawn (env : Env) (input_usd output_gltf : String)
    (h : env.pathExists input_usd = false) :
    scriptEntry env input_usd output_gltf =
      { printed := [.inputMissing input_usd], spawned := [], raised := none } := by
  simp [scriptEntry, h]

/-- Witness for C1: concrete environment where no path exists. -/
theorem missing_input_reports_and_no_spawn_witness :
    envNoFile.pathExists "missing.usd" = false ∧
    scriptEntry envNoFile "missing.usd" "out.glb" =
      { printed := [.inputMissing "missing.usd"], spawned := [], raised := none } :=
  ⟨rfl, missing_input_reports_and_no_spawn envNoFile "missing.usd" "out.glb" rfl⟩

/-- Claim C2: if the external process exits with status zero, the console
shows its captured stdout text followed by the confirmation message naming
the exact output path supplied. -/
theorem success_prints_stdout_then_confirmation (env : Env)
    (input_usd output_gltf : String) (r : CompletedProcess)
    (hrun : env.run (usd2gltfArgv input_usd output_gltf) = .completed r)
    (h0 : r.returncode = 0) :
    consoleText (convert_usd_to_gltf env input_usd output_gltf) =
      [r.stdout, "Conversion successful: " ++ output_gltf] := by
  simp [convert_usd_to_gltf, subprocessRun, hrun, h0, consoleText, Msg.render]

/-- Witness for C2: the spec scenario, a stub tool exiting 0 printing
`OK` with output path `a.glb`. -/
theorem success_prints_stdout_then_confirmation_witness :
    envOk.run (usd2gltfArgv "a.usd" "a.glb") = .completed ⟨0, "OK", ""⟩ ∧
    consoleText (convert_usd_to_gltf envOk "a.usd" "a.glb") =
      ["OK", "Conversion successful: " ++ "a.glb"] ∧
    "Conversion successful: " ++ "a.glb" = "Conversion successful: a.glb" :=
  ⟨rfl,
   success_prints_stdout_then_confirmation envOk "a.usd" "a.glb" ⟨0, "OK", ""⟩ rfl rfl,
   by decide⟩

/-- Claim C3: if the external process exits non-zero, the console shows an
error message containing the captured stderr text, and no exception
escapes the invoker. -/
theorem nonzero_exit_prints_stderr (env : Env)
    (input_usd output_gltf : String) (r : CompletedProcess)
    (hrun : env.run (usd2gltfArgv input_usd output_gltf) = .completed r)
    (hnz : r.returncode ≠ 0) :
    consoleText (convert_usd_to_gltf env input_usd output_gltf) =
      ["Error during conversion: " ++ r.stderr] ∧
    (convert_usd_to_gltf env input_usd output_gltf).raised = none := by
  simp [convert_usd_to_gltf, subprocessRun, hrun, hnz, consoleText, Msg.render]

/-- Witness for C3: a stub tool exiting 2 with stderr `boom`. -/
theorem nonzero_exit_prints_stderr_witness :
    envFail.run (usd2gltfArgv "a.usd" "a.glb") = .completed ⟨2, "some output", "boom"⟩ ∧
    ((2 : Int) ≠ 0) ∧
    (consoleText (convert_usd_to_gltf envFail "a.usd" "a.glb") =
      ["Error during conversion: " ++ "boom"] ∧
     (convert_usd_to_gltf envFail "a.usd" "a.glb").raised = none) :=
  ⟨rfl, by decide,
   nonzero_exit_prints_stderr envFail "a.usd" "a.glb" ⟨2, "some output", "boom"⟩ rfl (by decide)⟩

/-- Claim C4: if the external executable cannot be located or started, the
console shows the remediation message, and neither the success note nor
the tool-failure error message is produced. -/
theorem tool_missing_prints_remediation (env : Env)
    (input_usd output_gltf : String)
    (hrun : env.run (usd2gltfArgv input_usd output_gltf) = .execMissing) :
    consoleText (convert_usd_to_gltf env input_usd output_gltf) =
      ["usd2gltf tool not found. Please install it and add it to your PATH."] ∧
    ∀ m ∈ (convert_usd_to_gltf env input_usd output_gltf).printed,
      (∀ o, m ≠ .successNote o) ∧ (∀ e, m ≠ .convError e) := by
  simp [convert_usd_to_gltf, subprocessRun, hrun, consoleText, Msg.render]

/-- Witness for C4: concrete environment where the tool cannot start. -/
theorem tool_missing_prints_remediation_witness :
    envNoTool.run (usd2gltfArgv "a.usd" "a.glb") = .execMissing ∧
    (consoleText (convert_usd_to_gltf envNoTool "a.usd" "a.glb") =
      ["usd2gltf tool not found. Please install it and add it to your PATH."] ∧
     ∀ m ∈ (convert_usd_to_gltf envNoTool "a.usd" "a.glb").printed,
       (∀ o, m ≠ .successNote o) ∧ (∀ e, m ≠ .convError e)) :=
  ⟨rfl, tool_missing_prints_remediation envNoTool "a.usd" "a.glb" rfl⟩

/-- Claim C5: the invoker always hands `subprocess.run` the fixed argument
vector `[tool, input, flag, output]` with hardcoded tool name `usd2gltf`
and output flag `-o`; the invocation is the single synchronous step of the
model, whose result the rest of the function consumes. -/
theorem invocation_fixed_tool_and_flag (env : Env) (input_usd output_gltf : String) :
    (convert_usd_to_gltf env input_usd output_gltf).spawned =
      [["usd2gltf", input_usd, "-o", output_gltf]] :=
  convert_spawned_eq env input_usd output_gltf

/-- Claim C6: in every outcome, no exception escapes the invoker, the host
process is not terminated early, the script's exit code is 0 and identical
across environments (so no distinct exit code per outcome), leaving
printed text as the only outcome channel. -/
theorem outcomes_console_text_only (env : Env) :
    (mainScript env).raised = none ∧
    scriptExitCode env = 0 ∧
    (∀ env' : Env, scriptExitCode env = scriptExitCode env') ∧
    ∀ (e : Env) (i o : String), (convert_usd_to_gltf e i o).raised = none := by
  refine ⟨scriptEntry_raised_none env mainInput mainOutput, ?_, ?_, ?_⟩
  · simp [scriptExitCode, mainScript, scriptEntry_raised_none]
  · intro env'
    simp [scriptExitCode, mainScript, scriptEntry_raised_none]
  · intro e i o
    exact convert_raised_none e i o

/-- Claim C7: executed directly, the script uses the hardcoded example
path pair; when that input path does not exist, the console shows exactly
the input-not-found line naming it and nothing is handed to
`subprocess.run`. -/
theorem main_missing_hardcoded_input (env : Env)
    (h : env.pathExists "Scenes/universalrobots-ur3e.usd" = false) :
    consoleText (mainScript env) =
      ["Input USD file not found: " ++ "Scenes/universalrobots-ur3e.usd"] ∧
    (mainScript env).spawned = [] := by
  simp [mainScript, scriptEntry, mainInput, mainOutput, h, consoleText, Msg.render]

/-- Witness for C7: concrete environment where no path exists. -/
theorem main_missing_hardcoded_input_witness :
    envNoFile.pathExists "Scenes/universalrobots-ur3e.usd" = false ∧
    (consoleText (mainScript envNoFile) =
      ["Input USD file not found: " ++ "Scenes/universalrobots-ur3e.usd"] ∧
     (mainScript envNoFile).spawned = []) :=
  ⟨rfl, main_missing_hardcoded_input envNoFile rfl⟩

/-- Claim C8: one call performs exactly one invocation attempt (never
more, in any outcome), and at script level at most one; the trace of
console messages is the only product of the call. -/
theorem single_invocation_no_retry (env : Env) (input_usd output_gltf : String) :
    (convert_usd_to_gltf env input_usd output_gltf).spawned.length = 1 ∧
    (scriptEntry env input_usd output_gltf).spawned.length ≤ 1 := by
  constructor
  · rw [convert_spawned_eq]
    rfl
  · unfold scriptEntry
    split
    · rw [convert_spawned_eq]
      exact Nat.le_refl 1
    · simp

/-- Claim C9 (implicit): `convert_usd_to_gltf` itself performs no
existence check — with a non-existing input path it still hands
`subprocess.run` the argument vector naming that path; the check lives
only in the script entry branch, which then spawns nothing. -/
theorem convert_has_no_existence_check (env : Env) (input_usd output_gltf : String)
    (h : env.pathExists input_usd = false) :
    (convert_usd_to_gltf env input_usd output_gltf).spawned =
      [["usd2gltf", input_usd, "-o", output_gltf]] ∧
    (scriptEntry env input_usd output_gltf).spawned = [] := by
  refine ⟨convert_spawned_eq env input_usd output_gltf, ?_⟩
  simp [scriptEntry, h]

/-- Witness for C9: calling the function directly on a missing path in a
concrete environment still spawns the process. -/
theorem convert_has_no_existence_check_witness :
    envNoFile.pathExists "missing.usd" = false ∧
    ((convert_usd_to_gltf envNoFile "missing.usd" "out.glb").spawned =
      [["usd2gltf", "missing.usd", "-o", "out.glb"]] ∧
     (scriptEntry envNoFile "missing.usd" "out.glb").spawned = []) :=
  ⟨rfl, convert_has_no_existence_check envNoFile "missing.usd" "out.glb" rfl⟩

/-- Claim C10 (implicit): the two captured streams are surfaced
exclusively by outcome — on exit zero the printed messages are the stdout
dump and the success note only (no stderr-carrying message), and on
non-zero exit the printed message is the stderr-carrying error only (no
stdout dump, no success note). -/
theorem streams_surfaced_exclusively_by_outcome (env : Env)
    (input_usd output_gltf : String) (r : CompletedProcess)
    (hrun : env.run (usd2gltfArgv input_usd output_gltf) = .completed r) :
    (r.returncode = 0 →
      (convert_usd_to_gltf env input_usd output_gltf).printed =
        [.stdoutDump r.stdout, .successNote output_gltf] ∧
      ∀ e, Msg.convError e ∉ (convert_usd_to_gltf env input_usd output_gltf).printed) ∧
    (r.returncode ≠ 0 →
      (convert_usd_to_gltf env input_usd output_gltf).printed = [.convError r.stderr] ∧
      (∀ s, Msg.stdoutDump s ∉ (convert_usd_to_gltf env input_usd output_gltf).printed) ∧
      ∀ o, Msg.successNote o ∉ (convert_usd_to_gltf env input_usd output_gltf).printed) := by
  constructor
  · intro h0
    simp [convert_usd_to_gltf, subprocessRun, hrun, h0]
  · intro hnz
    simp [convert_usd_to_gltf, subprocessRun, hrun, hnz]

/-- Witness for C10 at the success outcome. -/
theorem streams_surfaced_exclusively_by_outcome_witness :
    envOk.run (usd2gltfArgv "a.usd" "a.glb") = .completed ⟨0, "OK", ""⟩ ∧
    (((⟨0, "OK", ""⟩ : CompletedProcess).returncode = 0 →
      (convert_usd_to_gltf envOk "a.usd" "a.glb").printed =
        [.stdoutDump "OK", .successNote "a.glb"] ∧
      ∀ e, Msg.convError e ∉ (convert_usd_to_gltf envOk "a.usd" "a.glb").printed) ∧
     ((⟨0, "OK", ""⟩ : CompletedProcess).returncode ≠ 0 →
      (convert_usd_to_gltf envOk "a.usd" "a.glb").printed = [.convError ""] ∧
      (∀ s, Msg.stdoutDump s ∉ (convert_usd_to_gltf envOk "a.usd" "a.glb").printed) ∧
      ∀ o, Msg.successNote o ∉ (convert_usd_to_gltf envOk "a.usd" "a.glb").printed)) :=
  ⟨rfl, streams_surfaced_exclusively_by_outcome envOk "a.usd" "a.glb" ⟨0, "OK", ""⟩ rfl⟩
